import Mathlib

/-!
Verification of the vizhub-lite virtual file-serving layer.

The definitions below are a shallow embedding of the repository's core:
the service worker embedded in `src/exampleContent.md` (message handler
and fetch handler) and the preview controller `src/Runner.tsx` (plus the
non-acknowledging Runner variant found in the repository).
-/

/-- Embeds `{ name, text }`: one virtual file (VirtualFile in the spec). -/
structure VizFile where
  name : String
  text : String
deriving DecidableEq

/-- Embeds the `VIZ_FILES` object: a mapping from opaque file id to file,
represented as its entry list in enumeration order. -/
abbrev VizFileSet := List (String × VizFile)

/-- Embeds JavaScript's `String.endsWith`: the pattern's characters are a
suffix of the subject's characters. -/
def jsEndsWith (s pat : String) : Bool :=
  pat.data.isSuffixOf s.data

/-- Embeds `guessContentType` from the embedded service-worker.js. -/
def guessContentType (fileName : String) : String :=
  if jsEndsWith fileName ".html" then "text/html"
  else if jsEndsWith fileName ".js" then "text/javascript"
  else if jsEndsWith fileName ".css" then "text/css"
  else if jsEndsWith fileName ".csv" then "text/csv"
  else "text/plain"

/-- Embeds the `event.data` of a message event: a `type` string and an
optional `payload` (absent models a JS `undefined` payload). -/
structure SWMsgData where
  type : String
  payload : Option VizFileSet
deriving DecidableEq

/-- Embeds the service worker's message listener.  Input: the connected
clients, the current store, and the message data (`none` models a message
whose `event.data` is absent/falsy).  Output: the new store and the list
of `(client, message)` pairs posted back. -/
def handleMessage (clients : List String) (store : VizFileSet)
    (data : Option SWMsgData) : VizFileSet × List (String × String) :=
  match data with
  | some d =>
    if d.type == "SET_VIZ_FILES" then
      -- VIZ_FILES = event.data.payload || {}; then ack every client
      (d.payload.getD [], clients.map (fun c => (c, "VIZ_FILES_RECEIVED")))
    else if d.type == "CLAIM_CLIENTS" then
      -- self.clients.claim(): no store change, no message posted
      (store, [])
    else
      (store, [])
  | none => (store, [])

/-- Embeds the `URL` object as the fetch handler sees it: `pathname`
excludes query (`search`) and fragment (`hash`) by construction. -/
structure Url where
  origin : String
  pathname : String
  search : String
  hash : String

/-- Embeds `url.pathname.replace` with the anchored slash pattern:
strips one leading slash if present. -/
def normalizePath (pathname : String) : String :=
  match pathname.data with
  | '/' :: rest => String.mk rest
  | _ => pathname

/-- Embeds the `Response` constructed by the fetch handler. -/
structure SWResponse where
  status : Nat
  contentType : String
  body : String
deriving DecidableEq

/-- Embeds the lookup-and-respond body of the fetch listener: find the
first file whose `.name` equals the path and build its response. -/
def resolve (store : VizFileSet) (path : String) : Option SWResponse :=
  match store.find? (fun p => p.2.name == path) with
  | some (_, f) =>
    some { status := 200, contentType := guessContentType f.name, body := f.text }
  | none => none

/-- Embeds the fetch listener: intercept only same-origin requests;
`none` means the handler does not answer and the request falls through. -/
def handleFetch (selfOrigin : String) (store : VizFileSet) (url : Url) :
    Option SWResponse :=
  if url.origin == selfOrigin then
    resolve store (normalizePath url.pathname)
  else
    none

/-- Embeds the React state of `Runner.tsx` together with the `vizFiles`
prop: `swReady`, `filesReceived`, `iframeKey`, and the current prop. -/
structure CtrlState where
  swReady : Bool
  filesReceived : Bool
  iframeKey : Nat
  vizFiles : VizFileSet
deriving DecidableEq

/-- Embeds `allVizFileIds.some((fileId) => vizFiles[fileId].name === "index.html")`. -/
def hasIndexHtml (files : VizFileSet) : Bool :=
  files.any (fun p => p.2.name == "index.html")

/-- Embeds `iframeSrc = hasIndexHtml ? "/index.html" : undefined`. -/
def iframeSrc (files : VizFileSet) : Option String :=
  if hasIndexHtml files then some "/index.html" else none

/-- Embeds `shouldRenderIframe = swReady && iframeSrc && filesReceived`. -/
def shouldRenderIframe (c : CtrlState) : Bool :=
  c.swReady && (iframeSrc c.vizFiles).isSome && c.filesReceived

/-- What the Runner renders in place of the preview: an iframe with a
remount key and source, the explicit no-entry-document message of the
non-acknowledging Runner variant, or nothing at all. -/
inductive RunnerView where
  | iframe (key : Nat) (src : String)
  | noEntryMessage
  | empty
deriving DecidableEq

/-- Embeds the JSX of `Runner.tsx`:
`shouldRenderIframe ? <iframe key={iframeKey} src={iframeSrc} /> : null`. -/
def renderRunner (c : CtrlState) : RunnerView :=
  if shouldRenderIframe c then
    RunnerView.iframe c.iframeKey ((iframeSrc c.vizFiles).getD "")
  else
    RunnerView.empty

/-- Embeds the JSX of the repository's non-acknowledging Runner variant:
`iframeSrc ? <iframe src={iframeSrc} ... /> : <p>No file named index.html ...</p>`. -/
def renderRunnerNoAck (files : VizFileSet) : RunnerView :=
  match iframeSrc files with
  | some src => RunnerView.iframe 0 src
  | none => RunnerView.noEntryMessage

/-- Embeds the publish effect of `Runner.tsx` (runs when `vizFiles`
changes): if the worker is not ready it does nothing; otherwise it
clears `filesReceived`, posts `SET_VIZ_FILES`, and bumps the iframe key.
Returns the new state and the messages posted to the worker. -/
def ctrlPublish (c : CtrlState) (files : VizFileSet) : CtrlState × List SWMsgData :=
  if c.swReady then
    ({ c with filesReceived := false, vizFiles := files, iframeKey := c.iframeKey + 1 },
     [{ type := "SET_VIZ_FILES", payload := some files }])
  else
    ({ c with vizFiles := files }, [])

/-- Embeds the message handler of `Runner.tsx`: on `VIZ_FILES_RECEIVED`
set `filesReceived`; every other message is ignored. -/
def ctrlOnMessage (c : CtrlState) (m : String) : CtrlState :=
  if m == "VIZ_FILES_RECEIVED" then { c with filesReceived := true } else c

/-- The whole-system state: controller, worker store, the two ordered
message channels, and the log of iframe loads.  Each load records the
iframe key and the worker's answer for `/index.html` at load time. -/
structure SysState where
  ctrl : CtrlState
  store : VizFileSet
  toSW : List SWMsgData
  toCtrl : List String
  loads : List (Nat × Option SWResponse)
deriving DecidableEq

/-- Atomic system events: a `vizFiles` prop change (publish effect),
delivery of the next controller-to-worker message, delivery of the next
worker-to-controller message, and a load of the rendered iframe. -/
inductive SysEvent where
  | propChange (files : VizFileSet)
  | swDeliver
  | ctrlDeliver
  | frameLoad

/-- One system step.  Channels are FIFO per direction; the worker and the
controller each process one message to completion, matching the
single-threaded run-to-completion semantics of both contexts. -/
def sysStep (origin : String) (s : SysState) (e : SysEvent) : SysState :=
  match e with
  | SysEvent.propChange files =>
    let r := ctrlPublish s.ctrl files
    { s with ctrl := r.1, toSW := s.toSW ++ r.2 }
  | SysEvent.swDeliver =>
    match s.toSW with
    | [] => s
    | d :: rest =>
      let r := handleMessage ["controller"] s.store (some d)
      { s with store := r.1, toSW := rest, toCtrl := s.toCtrl ++ r.2.map Prod.snd }
  | SysEvent.ctrlDeliver =>
    match s.toCtrl with
    | [] => s
    | m :: rest => { s with ctrl := ctrlOnMessage s.ctrl m, toCtrl := rest }
  | SysEvent.frameLoad =>
    if shouldRenderIframe s.ctrl then
      { s with loads :=
          s.loads ++ [(s.ctrl.iframeKey, handleFetch origin s.store ⟨origin, "/index.html", "", ""⟩)] }
    else
      s

/-- Run the system over a list of events. -/
def sysRun (origin : String) (s0 : SysState) (es : List SysEvent) : SysState :=
  es.foldl (sysStep origin) s0

lemma resolve_isSome_iff (store : VizFileSet) (path : String) :
    (resolve store path).isSome ↔ ∃ p ∈ store, p.2.name = path := by
  unfold resolve
  cases hf : store.find? (fun p => p.2.name == path) with
  | none =>
    simp only [Option.isSome_none, Bool.false_eq_true, false_iff]
    rw [List.find?_eq_none] at hf
    rintro ⟨p, hp, hname⟩
    exact hf p hp (by simpa using hname)
  | some a =>
    simp only [Option.isSome_some, true_iff]
    refine ⟨a, List.mem_of_find?_eq_some hf, ?_⟩
    simpa using List.find?_some hf

lemma resolve_eq_some (store : VizFileSet) (path : String) (r : SWResponse)
    (h : resolve store path = some r) :
    r.status = 200 ∧ ∃ p ∈ store, p.2.name = path ∧ r.body = p.2.text ∧
      r.contentType = guessContentType p.2.name := by
  unfold resolve at h
  cases hf : store.find? (fun p => p.2.name == path) with
  | none => rw [hf] at h; exact absurd h (by simp)
  | some a =>
    rw [hf] at h
    obtain ⟨rfl⟩ : some (⟨200, guessContentType a.2.name, a.2.text⟩ : SWResponse) = some r := by
      cases a; exact h
    refine ⟨rfl, a, List.mem_of_find?_eq_some hf, ?_, rfl, rfl⟩
    simpa using List.find?_some hf

lemma resolve_eq_none (store : VizFileSet) (path : String)
    (h : ∀ p ∈ store, p.2.name ≠ path) : resolve store path = none := by
  unfold resolve
  have hf : store.find? (fun p => p.2.name == path) = none := by
    rw [List.find?_eq_none]
    intro p hp
    simpa using h p hp
  rw [hf]

lemma handleFetch_same_origin (o : String) (store : VizFileSet) (url : Url)
    (h : url.origin = o) :
    handleFetch o store url = resolve store (normalizePath url.pathname) := by
  unfold handleFetch
  simp [h]

/-- Claim C1: for every stored file set and same-origin request, the
interceptor answers with status 200 and the file's text exactly when some
file's name equals the normalized path (query and fragment ignored,
leading slash stripped); a request for `/` normalizes to the empty path
and resolves only against a file literally named so. -/
theorem C1_exact_match_resolution (o : String) (store : VizFileSet) (url : Url)
    (h : url.origin = o) :
    ((handleFetch o store url).isSome ↔
      ∃ p ∈ store, p.2.name = normalizePath url.pathname) ∧
    (∀ r, handleFetch o store url = some r →
      r.status = 200 ∧ ∃ p ∈ store, p.2.name = normalizePath url.pathname ∧
        r.body = p.2.text) ∧
    (∀ q1 f1 q2 f2, handleFetch o store ⟨url.origin, url.pathname, q1, f1⟩ =
      handleFetch o store ⟨url.origin, url.pathname, q2, f2⟩) ∧
    ((handleFetch o store ⟨o, "/", url.search, url.hash⟩).isSome ↔
      ∃ p ∈ store, p.2.name = "") := by
  refine ⟨?_, ?_, fun q1 f1 q2 f2 => rfl, ?_⟩
  · rw [handleFetch_same_origin o store url h]
    exact resolve_isSome_iff store (normalizePath url.pathname)
  · intro r hr
    rw [handleFetch_same_origin o store url h] at hr
    obtain ⟨hs, p, hp, hname, hbody, _⟩ := resolve_eq_some _ _ _ hr
    exact ⟨hs, p, hp, hname, hbody⟩
  · rw [handleFetch_same_origin o store ⟨o, "/", url.search, url.hash⟩ rfl]
    have : normalizePath "/" = "" := rfl
    rw [this]
    exact resolve_isSome_iff store ""

/-- Witness for C1 at the spec's own example: the set with `index.html`
mapped to `H1` answers `/index.html` with 200 and body `H1`. -/
theorem C1_exact_match_resolution_witness :
    ((handleFetch "https://a" [("a", ⟨"index.html", "H1"⟩), ("b", ⟨"index.js", "J1"⟩)]
        ⟨"https://a", "/index.html", "", ""⟩).isSome ↔
      ∃ p ∈ [(("a" : String), (⟨"index.html", "H1"⟩ : VizFile)), ("b", ⟨"index.js", "J1"⟩)],
        p.2.name = normalizePath "/index.html") := by
  exact (C1_exact_match_resolution "https://a"
    [("a", ⟨"index.html", "H1"⟩), ("b", ⟨"index.js", "J1"⟩)]
    ⟨"https://a", "/index.html", "", ""⟩ rfl).1

/-- Claim C4: a same-origin request whose normalized path matches no file
name is not answered at all by the interceptor (no synthetic 404); it
falls through. -/
theorem C4_request_miss_falls_through (o : String) (store : VizFileSet) (url : Url)
    (h : url.origin = o)
    (hmiss : ∀ p ∈ store, p.2.name ≠ normalizePath url.pathname) :
    handleFetch o store url = none := by
  rw [handleFetch_same_origin o store url h]
  exact resolve_eq_none store (normalizePath url.pathname) hmiss

/-- Witness for C4 at the spec's example: `/missing.png` is not answered. -/
theorem C4_request_miss_falls_through_witness :
    handleFetch "https://a" [("a", ⟨"index.html", "H1"⟩), ("b", ⟨"index.js", "J1"⟩)]
      ⟨"https://a", "/missing.png", "", ""⟩ = none := by
  exact C4_request_miss_falls_through "https://a"
    [("a", ⟨"index.html", "H1"⟩), ("b", ⟨"index.js", "J1"⟩)]
    ⟨"https://a", "/missing.png", "", ""⟩ rfl (by decide)

/-- Claim C5: a cross-origin request is never answered, regardless of the
path or the current file set. -/
theorem C5_cross_origin_pass_through (o : String) (store : VizFileSet) (url : Url)
    (h : url.origin ≠ o) : handleFetch o store url = none := by
  unfold handleFetch
  simp [h]

/-- Witness for C5: a cross-origin request for a path whose name is in
the set still passes through. -/
theorem C5_cross_origin_pass_through_witness :
    handleFetch "https://a" [("1", ⟨"index.html", "H1"⟩)]
      ⟨"https://evil", "/index.html", "", ""⟩ = none := by
  exact C5_cross_origin_pass_through "https://a" [("1", ⟨"index.html", "H1"⟩)]
    ⟨"https://evil", "/index.html", "", ""⟩ (by decide)

/-- Claim C2: a `SET_VIZ_FILES` message replaces the whole stored set with
the payload and acknowledges every connected client; the empty set is
accepted, and against an empty store every request misses. -/
theorem C2_replace_file_set (clients : List String) (store F : VizFileSet) :
    handleMessage clients store (some ⟨"SET_VIZ_FILES", some F⟩) =
      (F, clients.map (fun c => (c, "VIZ_FILES_RECEIVED"))) ∧
    handleMessage clients store (some ⟨"SET_VIZ_FILES", some []⟩) =
      ([], clients.map (fun c => (c, "VIZ_FILES_RECEIVED"))) ∧
    (∀ o url, handleFetch o ([] : VizFileSet) url = none) := by
  refine ⟨rfl, rfl, fun o url => ?_⟩
  unfold handleFetch
  split
  · rfl
  · rfl

/-- Claim C10: any message that is not a `SET_VIZ_FILES` message — the
`CLAIM_CLIENTS` message, unknown types, or an absent `event.data` —
leaves the store unchanged and posts no acknowledgment. -/
theorem C10_non_replace_messages_frame (clients : List String) (store : VizFileSet)
    (data : Option SWMsgData)
    (h : ∀ d, data = some d → d.type ≠ "SET_VIZ_FILES") :
    handleMessage clients store data = (store, []) := by
  cases data with
  | none => rfl
  | some d =>
    have hne : d.type ≠ "SET_VIZ_FILES" := h d rfl
    simp only [handleMessage]
    rw [if_neg (by simpa using hne)]
    split
    · rfl
    · rfl

/-- Witness for C10 at a `CLAIM_CLIENTS` message. -/
theorem C10_non_replace_messages_frame_witness :
    handleMessage ["c1"] [("1", ⟨"a.js", "x"⟩)] (some ⟨"CLAIM_CLIENTS", none⟩) =
      ([("1", ⟨"a.js", "x"⟩)], []) := by
  exact C10_non_replace_messages_frame ["c1"] [("1", ⟨"a.js", "x"⟩)]
    (some ⟨"CLAIM_CLIENTS", none⟩)
    (fun d hd => by injection hd with h2; subst h2; decide)

lemma count_map_pair (m : String) (clients : List String) (c : String) :
    (clients.map (fun x => (x, m))).count (c, m) = clients.count c := by
  induction clients with
  | nil => rfl
  | cons a l ih =>
    simp only [List.map_cons, List.count_cons, ih]
    by_cases hac : a = c
    · simp [hac]
    · have hca : ¬ c = a := fun hcc => hac hcc.symm
      simp [hac, hca]

/-- Claim C9: publishing the same set twice yields the same store (hence
identical resolved responses for every request) after each publish, and
each publish posts exactly one acknowledgment per connected client. -/
theorem C9_idempotent_republish (o : String) (clients : List String)
    (store F : VizFileSet) (url : Url) :
    (handleMessage clients store (some ⟨"SET_VIZ_FILES", some F⟩)).1 =
      (handleMessage clients
        (handleMessage clients store (some ⟨"SET_VIZ_FILES", some F⟩)).1
        (some ⟨"SET_VIZ_FILES", some F⟩)).1 ∧
    handleFetch o (handleMessage clients store (some ⟨"SET_VIZ_FILES", some F⟩)).1 url =
      handleFetch o (handleMessage clients
        (handleMessage clients store (some ⟨"SET_VIZ_FILES", some F⟩)).1
        (some ⟨"SET_VIZ_FILES", some F⟩)).1 url ∧
    (handleMessage clients store (some ⟨"SET_VIZ_FILES", some F⟩)).2 =
      clients.map (fun c => (c, "VIZ_FILES_RECEIVED")) ∧
    (handleMessage clients
        (handleMessage clients store (some ⟨"SET_VIZ_FILES", some F⟩)).1
        (some ⟨"SET_VIZ_FILES", some F⟩)).2 =
      clients.map (fun c => (c, "VIZ_FILES_RECEIVED")) ∧
    (∀ c, clients.count c = 1 →
      ((handleMessage clients store (some ⟨"SET_VIZ_FILES", some F⟩)).2 ++
        (handleMessage clients
          (handleMessage clients store (some ⟨"SET_VIZ_FILES", some F⟩)).1
          (some ⟨"SET_VIZ_FILES", some F⟩)).2).count (c, "VIZ_FILES_RECEIVED") = 2) := by
  refine ⟨rfl, rfl, rfl, rfl, fun c hc => ?_⟩
  show ((clients.map (fun c : String => (c, "VIZ_FILES_RECEIVED"))) ++
      (clients.map (fun c : String => (c, "VIZ_FILES_RECEIVED")))).count
        (c, "VIZ_FILES_RECEIVED") = 2
  rw [List.count_append, count_map_pair "VIZ_FILES_RECEIVED" clients c, hc]

/-- Witness for C9 with one connected client. -/
theorem C9_idempotent_republish_witness :
    (((handleMessage ["c1"] [] (some ⟨"SET_VIZ_FILES", some [("1", ⟨"a.js", "x"⟩)]⟩)).2 ++
      (handleMessage ["c1"]
        (handleMessage ["c1"] [] (some ⟨"SET_VIZ_FILES", some [("1", ⟨"a.js", "x"⟩)]⟩)).1
        (some ⟨"SET_VIZ_FILES", some [("1", ⟨"a.js", "x"⟩)]⟩)).2).count
        ("c1", "VIZ_FILES_RECEIVED") = 2) := by
  exact (C9_idempotent_republish "https://a" ["c1"] [] [("1", ⟨"a.js", "x"⟩)]
    ⟨"https://a", "/a.js", "", ""⟩).2.2.2.2 "c1" (by decide)

lemma not_jsEndsWith_both (s1 s2 name : String)
    (hc1 : s1.data.isSuffixOf s2.data = false)
    (hc2 : s2.data.isSuffixOf s1.data = false)
    (h1 : jsEndsWith name s1 = true) (h2 : jsEndsWith name s2 = true) : False := by
  unfold jsEndsWith at h1 h2
  have hs1 : s1.data <:+ name.data := List.isSuffixOf_iff_suffix.mp h1
  have hs2 : s2.data <:+ name.data := List.isSuffixOf_iff_suffix.mp h2
  rcases List.suffix_or_suffix_of_suffix hs1 hs2 with hx | hx
  · rw [← List.isSuffixOf_iff_suffix, hc1] at hx
    exact Bool.noConfusion hx
  · rw [← List.isSuffixOf_iff_suffix, hc2] at hx
    exact Bool.noConfusion hx

lemma jsEndsWith_false_of (s1 s2 name : String)
    (hc1 : s1.data.isSuffixOf s2.data = false)
    (hc2 : s2.data.isSuffixOf s1.data = false)
    (h2 : jsEndsWith name s2 = true) : jsEndsWith name s1 = false := by
  cases hx : jsEndsWith name s1 with
  | false => rfl
  | true => exact (not_jsEndsWith_both s1 s2 name hc1 hc2 hx h2).elim

/-- Claim C3: the `Content-Type` of a served file is determined solely by
the file name's extension suffix via the fixed table, with `text/plain`
for any other or missing extension. -/
theorem C3_content_type_mapping (name : String) :
    (jsEndsWith name ".html" = true → guessContentType name = "text/html") ∧
    (jsEndsWith name ".js" = true → guessContentType name = "text/javascript") ∧
    (jsEndsWith name ".css" = true → guessContentType name = "text/css") ∧
    (jsEndsWith name ".csv" = true → guessContentType name = "text/csv") ∧
    (jsEndsWith name ".html" = false → jsEndsWith name ".js" = false →
      jsEndsWith name ".css" = false → jsEndsWith name ".csv" = false →
      guessContentType name = "text/plain") := by
  refine ⟨fun h => ?_, fun h => ?_, fun h => ?_, fun h => ?_, fun h1 h2 h3 h4 => ?_⟩
  · simp [guessContentType, h]
  · have h1 := jsEndsWith_false_of ".html" ".js" name (by decide) (by decide) h
    simp [guessContentType, h1, h]
  · have h1 := jsEndsWith_false_of ".html" ".css" name (by decide) (by decide) h
    have h2 := jsEndsWith_false_of ".js" ".css" name (by decide) (by decide) h
    simp [guessContentType, h1, h2, h]
  · have h1 := jsEndsWith_false_of ".html" ".csv" name (by decide) (by decide) h
    have h2 := jsEndsWith_false_of ".js" ".csv" name (by decide) (by decide) h
    have h3 := jsEndsWith_false_of ".css" ".csv" name (by decide) (by decide) h
    simp [guessContentType, h1, h2, h3, h]
  · simp [guessContentType, h1, h2, h3, h4]

/-- Witness for C3 over the spec's five sample extensions. -/
theorem C3_content_type_mapping_witness :
    guessContentType "a.html" = "text/html" ∧
    guessContentType "a.js" = "text/javascript" ∧
    guessContentType "a.css" = "text/css" ∧
    guessContentType "a.csv" = "text/csv" ∧
    guessContentType "a.xyz" = "text/plain" :=
  ⟨(C3_content_type_mapping "a.html").1 (by decide),
   (C3_content_type_mapping "a.js").2.1 (by decide),
   (C3_content_type_mapping "a.css").2.2.1 (by decide),
   (C3_content_type_mapping "a.csv").2.2.2.1 (by decide),
   (C3_content_type_mapping "a.xyz").2.2.2.2 (by decide) (by decide) (by decide) (by decide)⟩

/-- Claim C7: when several files share a name, a request for that name is
answered from the first matching file in the set's enumeration order. -/
theorem C7_duplicate_first_match (o : String) (pre rest : VizFileSet) (k : String)
    (f : VizFile) (url : Url) (h : url.origin = o)
    (hname : f.name = normalizePath url.pathname)
    (hpre : ∀ p ∈ pre, p.2.name ≠ normalizePath url.pathname) :
    handleFetch o (pre ++ (k, f) :: rest) url =
      some ⟨200, guessContentType f.name, f.text⟩ := by
  rw [handleFetch_same_origin o _ url h]
  unfold resolve
  have hfpre : pre.find? (fun p => p.2.name == normalizePath url.pathname) = none := by
    rw [List.find?_eq_none]
    intro p hp
    simpa using hpre p hp
  have hfcons :
      List.find? (fun p => p.2.name == normalizePath url.pathname) ((k, f) :: rest) =
        some (k, f) :=
    List.find?_cons_of_pos rest (by simpa using hname)
  rw [List.find?_append, hfpre, Option.none_or, hfcons]

/-- Witness for C7: two files both named `x.txt`; the first one's text is
served. -/
theorem C7_duplicate_first_match_witness :
    handleFetch "https://a"
      [("a", ⟨"x.txt", "first"⟩), ("b", ⟨"x.txt", "second"⟩)]
      ⟨"https://a", "/x.txt", "", ""⟩ =
      some ⟨200, "text/plain", "first"⟩ := by
  exact C7_duplicate_first_match "https://a" [] [("b", ⟨"x.txt", "second"⟩)]
    "a" ⟨"x.txt", "first"⟩ ⟨"https://a", "/x.txt", "", ""⟩ rfl (by decide)
    (by intro p hp; cases hp)

lemma hasIndexHtml_iff (F : VizFileSet) :
    hasIndexHtml F = true ↔ ∃ p ∈ F, p.2.name = "index.html" := by
  unfold hasIndexHtml
  rw [List.any_eq_true]
  simp

/-- Claim C8 (amended): the Runner targets the iframe at `/index.html`
exactly when some file is named `index.html` (the iframe is shown once
the worker is ready and the latest set acknowledged); with no such file
nothing is rendered in its place; the check is re-evaluated on every
publish, so publishing a set that adds `index.html` and receiving its
acknowledgment makes the surface load without a restart. -/
theorem C8_entry_document_gating (c : CtrlState) (F : VizFileSet) :
    (iframeSrc c.vizFiles = some "/index.html" ↔
      ∃ p ∈ c.vizFiles, p.2.name = "index.html") ∧
    (hasIndexHtml c.vizFiles = false → renderRunner c = RunnerView.empty) ∧
    (c.swReady = true → c.filesReceived = true →
      (renderRunner c = RunnerView.iframe c.iframeKey "/index.html" ↔
        hasIndexHtml c.vizFiles = true)) ∧
    (c.swReady = true → hasIndexHtml F = true →
      renderRunner (ctrlOnMessage (ctrlPublish c F).1 "VIZ_FILES_RECEIVED") =
        RunnerView.iframe (c.iframeKey + 1) "/index.html") := by
  refine ⟨?_, fun h => ?_, fun hsw hfr => ?_, fun hsw hF => ?_⟩
  · rw [← hasIndexHtml_iff]
    unfold iframeSrc
    cases h : hasIndexHtml c.vizFiles with
    | false => simp [h]
    | true => simp [h]
  · simp [renderRunner, shouldRenderIframe, iframeSrc, h]
  · cases h : hasIndexHtml c.vizFiles with
    | false => simp [renderRunner, shouldRenderIframe, iframeSrc, h]
    | true => simp [renderRunner, shouldRenderIframe, iframeSrc, h, hsw, hfr]
  · simp [ctrlPublish, hsw, ctrlOnMessage, renderRunner, shouldRenderIframe,
      iframeSrc, hF]

/-- Witness for C8: publishing a set that contains `index.html` from a
ready controller and receiving the acknowledgment mounts the iframe at
`/index.html` with a bumped key. -/
theorem C8_entry_document_gating_witness :
    renderRunner (ctrlOnMessage
      (ctrlPublish ⟨true, false, 0, []⟩ [("1", ⟨"index.html", "H"⟩)]).1
      "VIZ_FILES_RECEIVED") = RunnerView.iframe 1 "/index.html" := by
  exact (C8_entry_document_gating ⟨true, false, 0, []⟩
    [("1", ⟨"index.html", "H"⟩)]).2.2.2 rfl (by decide)

/-- Counterexample for C8 as stated: with no `index.html`, `Runner.tsx`
renders nothing at all rather than surfacing the explicit
no-entry-document message; that message exists only in the repository's
non-acknowledging Runner variant. -/
theorem C8_entry_document_gating_counterexample :
    renderRunner ⟨true, true, 0, [("a", ⟨"main.js", "x"⟩)]⟩ = RunnerView.empty ∧
    renderRunnerNoAck [("a", ⟨"main.js", "x"⟩)] = RunnerView.noEntryMessage ∧
    RunnerView.empty ≠ RunnerView.noEntryMessage := by
  refine ⟨by decide, by decide, by decide⟩

/-- Claim C6 (refuted, latent race the spec itself flags): because
acknowledgments carry no sequence number, the acknowledgment of a
superseded publish can arrive after a newer publish; the controller then
sets `filesReceived` and mounts the iframe while the worker still serves
the previous file set.  Concretely: publish `OLD`, the worker applies it
and acknowledges, publish `NEW`, the stale acknowledgment is delivered,
and the iframe load resolves `/index.html` to `OLD` even though the
worker has not yet processed `NEW` (its message is still queued). -/
theorem C6_ack_gating_race :
    sysRun "https://a"
      ⟨⟨true, false, 0, []⟩, [], [], [], []⟩
      [SysEvent.propChange [("1", ⟨"index.html", "OLD"⟩)],
       SysEvent.swDeliver,
       SysEvent.propChange [("1", ⟨"index.html", "NEW"⟩)],
       SysEvent.ctrlDeliver,
       SysEvent.frameLoad] =
      ⟨⟨true, true, 2, [("1", ⟨"index.html", "NEW"⟩)]⟩,
       [("1", ⟨"index.html", "OLD"⟩)],
       [⟨"SET_VIZ_FILES", some [("1", ⟨"index.html", "NEW"⟩)]⟩],
       [],
       [(2, some ⟨200, "text/html", "OLD"⟩)]⟩ ∧
    handleFetch "https://a" [("1", ⟨"index.html", "NEW"⟩)]
      ⟨"https://a", "/index.html", "", ""⟩ = some ⟨200, "text/html", "NEW"⟩ := by
  refine ⟨by decide, by decide⟩
